import Mathlib

/-!
Shallow embedding of slobot (src/slobot/slobot.py), a chat bridge that
relays messages between "sockets" (transports) according to a route table.

Modelling conventions:
* A Python message tuple is `PyMsg`: the normal shape is the 3-tuple
  `(kind, sender, text)` (`triple`); `Router.users` (line 268) builds a
  2-tuple `('message', text)` (`pair`).
* Python exceptions are modelled with `Except PyError`.
* A route group (a YAML dict) is an insertion-ordered association list
  `List (String × String)` from socket name to channel; `dict.get` is
  `List.lookup`, `dict.items()` is the list itself.
* The socket dictionary `Router._sockets` is modelled as a total function
  `String → Socket`; `Config.__init__` (lines 51-56) rejects any route key
  that is not a socket name, so every lookup `self._sockets[dest_key]`
  performed by `Router.dispatch` is on a present key.
* External effects (a destination `send` raising, a roster lookup) are
  supplied as oracles, so the functions stay executable.
-/

/-- Kinds of Python exceptions that the modelled code can raise. -/
inductive PyError where
  | nameError
  | valueError
  | indexError
  | typeError
  | exc
deriving DecidableEq, Repr

/-- A Python message tuple. `triple` is the documented shape
`(kind, sender, text)` with `sender` possibly `None`; `pair` is the
2-tuple `(kind, text)` that `Router.users` builds at line 268. -/
inductive PyMsg where
  | triple (kind : String) (sender : Option String) (text : String)
  | pair (kind : String) (text : String)
deriving DecidableEq, Repr

/-- The four socket types of `socket_types` (lines 224-229). -/
inductive SockType where
  | console
  | irc
  | xmpp
  | fifo
deriving DecidableEq, Repr

/-- The state of a socket relevant to routing, as set by `Socket.__init__`
(lines 76-84): its dictionary key and its `readonly` flag. -/
structure Socket where
  key : String
  typ : SockType
  readonly : Bool
deriving DecidableEq, Repr

/-- Construction of a socket by `Router.__init__` (line 241):
`socket_types[conf.type](self, key, conf)`.  None of the four subclasses
(`Console`, `FIFO`, `IRC`, `XMPP`) overrides or forwards the `readonly`
parameter, so every socket gets `Socket.__init__`'s default
`readonly=False`, whatever its type. -/
def mkSocket (key : String) (typ : SockType) : Socket :=
  { key := key, typ := typ, readonly := false }

/-- A route table: the list of route groups (`config.routes`). -/
abbrev RouteTable := List (List (String × String))

/-- `Router.dispatch` (lines 246-254): for every route group whose entry
for the source key equals the source channel, yield
`(self._sockets[dest_key], dest_chan)` for every entry of the group whose
key differs from the source key and whose socket is not readonly. -/
def Router.dispatch (rt : RouteTable) (sockets : String → Socket)
    (sourceKey channel : String) : List (Socket × String) :=
  rt.flatMap (fun route =>
    if route.lookup sourceKey = some channel then
      route.filterMap (fun e =>
        if e.1 ≠ sourceKey ∧ (sockets e.1).readonly = false then
          some (sockets e.1, e.2)
        else none)
    else [])

/-- The send loop of `Router.receive` (lines 257-262).  `sendFails dk dc`
says whether `dest.send(dest_chan, message)` raises for that destination.
When a send raises, the `except` handler evaluates
`"...".format(dest_key, dest_chan)` — but `dest_key` is not a name in
`Router.receive`'s scope (the loop variable is `dest`), so the handler
itself raises `NameError`, which propagates and aborts the loop.
Returns the list of attempted send calls and the escaping exception,
if any. -/
def Router.sendLoop (sendFails : String → String → Bool) (m : PyMsg) :
    List (Socket × String) → List (Socket × String × PyMsg) × Option PyError
  | [] => ([], none)
  | (d, dc) :: rest =>
    if sendFails d.key dc then
      ([(d, dc, m)], some PyError.nameError)
    else
      let r := Router.sendLoop sendFails m rest
      ((d, dc, m) :: r.1, r.2)

/-- `Router.receive` (lines 257-262): send the message to every
destination produced by `dispatch`, via the send loop above. -/
def Router.receive (rt : RouteTable) (sockets : String → Socket)
    (sendFails : String → String → Bool) (sourceKey sourceChan : String)
    (m : PyMsg) : List (Socket × String × PyMsg) × Option PyError :=
  Router.sendLoop sendFails m (Router.dispatch rt sockets sourceKey sourceChan)

/-- Claim C1: `Router.dispatch(s, c)` yields exactly, for every route group
`g` with `g[s.key] == c`, the pairs `(sockets[destName], destChannel)` for
each entry of `g` with `destName != s.key` and `sockets[destName]` not
readonly; it never yields the source itself; a source matching no route
group yields the empty set.  The hypothesis records the `Router.__init__`
invariant that each socket's `key` field is its dictionary key. -/
theorem dispatch_characterization (rt : RouteTable) (sockets : String → Socket)
    (hkeys : ∀ k, (sockets k).key = k) (s c : String) :
    (∀ p : Socket × String,
        p ∈ Router.dispatch rt sockets s c ↔
          ∃ g ∈ rt, g.lookup s = some c ∧
            ∃ dk dc, p = (sockets dk, dc) ∧ (dk, dc) ∈ g ∧ dk ≠ s ∧
              (sockets dk).readonly = false)
    ∧ (∀ dc, (sockets s, dc) ∉ Router.dispatch rt sockets s c)
    ∧ ((∀ g ∈ rt, g.lookup s ≠ some c) → Router.dispatch rt sockets s c = []) := by
  have hmem : ∀ p : Socket × String,
      p ∈ Router.dispatch rt sockets s c ↔
        ∃ g ∈ rt, g.lookup s = some c ∧
          ∃ dk dc, p = (sockets dk, dc) ∧ (dk, dc) ∈ g ∧ dk ≠ s ∧
            (sockets dk).readonly = false := by
    intro p
    unfold Router.dispatch
    simp only [List.mem_flatMap]
    constructor
    · rintro ⟨g, hg, hp⟩
      split at hp
      · rename_i hlk
        rcases List.mem_filterMap.mp hp with ⟨e, he, hkeep⟩
        split at hkeep
        · rename_i hcond
          exact ⟨g, hg, hlk, e.1, e.2, (Option.some.injEq _ _ ▸ hkeep).symm,
            by simpa using he, hcond.1, hcond.2⟩
        · exact absurd hkeep (by simp)
      · simp at hp
    · rintro ⟨g, hg, hlk, dk, dc, hp, hin, hne, hro⟩
      refine ⟨g, hg, ?_⟩
      rw [if_pos hlk]
      exact List.mem_filterMap.mpr ⟨(dk, dc), hin, by simp [hne, hro, hp]⟩
  refine ⟨hmem, ?_, ?_⟩
  · intro dc hcontra
    rcases (hmem (sockets s, dc)).mp hcontra with ⟨g, _, _, dk, dc', hp, _, hne, _⟩
    have h1 : sockets dk = sockets s := by
      have := congrArg Prod.fst hp
      simpa using this.symm
    have : dk = s := by
      have := congrArg Socket.key h1
      simpa [hkeys] using this
    exact hne this
  · intro hnone
    unfold Router.dispatch
    apply List.eq_nil_iff_forall_not_mem.mpr
    intro p hp
    rcases List.mem_flatMap.mp hp with ⟨g, hg, hmem'⟩
    rw [if_neg (hnone g hg)] at hmem'
    simp at hmem'

/-- Witness for C1 on a concrete route table: the destination entry of the
single matching group is yielded. -/
theorem dispatch_characterization_witness :
    (∀ k, ((fun k => mkSocket k SockType.console) k).key = k) ∧
      (mkSocket "b" SockType.console, "d") ∈
        Router.dispatch [[("a", "c"), ("b", "d")]]
          (fun k => mkSocket k SockType.console) "a" "c" := by
  refine ⟨fun k => rfl, ?_⟩
  exact ((dispatch_characterization [[("a", "c"), ("b", "d")]]
      (fun k => mkSocket k SockType.console) (fun k => rfl) "a" "c").1
      (mkSocket "b" SockType.console, "d")).mpr
    ⟨[("a", "c"), ("b", "d")], by simp, by decide, "b", "d", rfl, by decide,
      by decide, rfl⟩

/-- `FIFO.send` (lines 137-138): a no-op that just returns. -/
def FIFO.send (_ : String) (_ : PyMsg) : Except PyError Unit := Except.ok ()

/-- Claim C2 (code evaluation): with route group `{a: c1, b: c2, d: c3}` and
`b`'s `send` raising, the modelled `Router.receive` attempts only `b`, then
the `except` handler's reference to the undefined name `dest_key` (line 262)
raises `NameError`: `d` never receives the message and the exception
escapes `Router.receive`, contrary to the claim. -/
theorem receive_send_failure_raises_nameError :
    Router.receive [[("a", "c1"), ("b", "c2"), ("d", "c3")]]
        (fun k => mkSocket k SockType.console) (fun dk _ => dk == "b")
        "a" "c1" (PyMsg.triple "message" (some "u") "hi")
      = ([(mkSocket "b" SockType.console, "c2",
            PyMsg.triple "message" (some "u") "hi")],
         some PyError.nameError) := by decide

/-- Claim C3 (code evaluation): `Router.__init__` constructs every socket,
the fifo included, with `Socket.__init__`'s default `readonly=False`
(no caller in the file ever passes `readonly=True`), so a fifo destination
IS yielded by `Router.dispatch` and `Router.receive` does call its
(no-op) `send`, contrary to the claim. -/
theorem fifo_dispatched_despite_spec :
    Router.dispatch [[("i", "#c"), ("f", "*")]]
        (fun k => if k = "f" then mkSocket "f" SockType.fifo
                  else mkSocket k SockType.irc) "i" "#c"
      = [(mkSocket "f" SockType.fifo, "*")]
    ∧ (Router.receive [[("i", "#c"), ("f", "*")]]
        (fun k => if k = "f" then mkSocket "f" SockType.fifo
                  else mkSocket k SockType.irc)
        (fun _ _ => false) "i" "#c" (PyMsg.triple "message" (some "u") "hi")).1
      = [(mkSocket "f" SockType.fifo, "*",
          PyMsg.triple "message" (some "u") "hi")]
    ∧ (mkSocket "f" SockType.fifo).readonly = false
    ∧ FIFO.send "*" (PyMsg.triple "message" (some "u") "hi")
        = Except.ok () :=
  ⟨by decide, by decide, rfl, rfl⟩

/-- When no destination send fails, the send loop attempts every
destination in order and no exception escapes. -/
theorem sendLoop_noFail (m : PyMsg) :
    ∀ l : List (Socket × String),
      Router.sendLoop (fun _ _ => false) m l
        = (l.map fun p => (p.1, p.2, m), none) := by
  intro l
  induction l with
  | nil => rfl
  | cons hd tl ih =>
    obtain ⟨d, dc⟩ := hd
    simp [Router.sendLoop, ih]

/-- Counting an element in a flatMap sums the counts over the pieces. -/
theorem count_flatMap {α β : Type} [BEq β] (p : β) (f : α → List β) :
    ∀ l : List α,
      List.count p (l.flatMap f) = (l.map fun g => List.count p (f g)).sum := by
  intro l
  induction l with
  | nil => rfl
  | cons hd tl ih => simp [List.count_append, ih]

/-- A duplicate-free list contains each element at most once. -/
theorem count_le_one_of_nodup {β : Type} [BEq β] [LawfulBEq β]
    {l : List β} (h : l.Nodup) (a : β) : List.count a l ≤ 1 := by
  induction l with
  | nil => simp
  | cons hd tl ih =>
    rw [List.count_cons]
    rcases List.nodup_cons.mp h with ⟨hmem, htl⟩
    by_cases hba : (hd == a) = true
    · have heq : hd = a := eq_of_beq hba
      subst heq
      have hz : List.count hd tl = 0 := List.count_eq_zero.mpr hmem
      simp [hz, hba]
    · rw [if_neg hba]
      simpa using ih htl

/-- Appending the message to each dispatch pair does not change counts. -/
theorem count_map_addMsg (m : PyMsg) (p : Socket × String) :
    ∀ l : List (Socket × String),
      List.count (p.1, p.2, m) (l.map fun q => (q.1, q.2, m))
        = List.count p l := by
  intro l
  induction l with
  | nil => rfl
  | cons hd tl ih =>
    rw [List.map_cons, List.count_cons, List.count_cons, ih]
    congr 1
    by_cases h : hd = p
    · subst h
      simp
    · have h1 : ¬(hd == p) = true := by simpa using h
      have h2 : ¬((hd.1, hd.2, m) == (p.1, p.2, m)) = true := by
        simp only [beq_iff_eq]
        intro hc
        apply h
        obtain ⟨a1, a2⟩ := hd
        obtain ⟨b1, b2⟩ := p
        simp only [Prod.mk.injEq] at hc
        simp [hc.1, hc.2.1]
      rw [if_neg h2, if_neg h1]

/-- If each element contributes at most one when a predicate holds and zero
otherwise, the total is bounded by the number of elements satisfying it. -/
theorem sum_le_filter_length {α : Type} (cnt : α → Nat) (P : α → Bool) :
    ∀ l : List α, (∀ x ∈ l, cnt x ≤ if P x then 1 else 0) →
      (l.map cnt).sum ≤ (l.filter P).length := by
  intro l
  induction l with
  | nil => intro _; simp
  | cons hd tl ih =>
    intro h
    have hhd := h hd (List.mem_cons_self hd tl)
    have htl := ih (fun x hx => h x (List.mem_cons_of_mem hd hx))
    rw [List.map_cons, List.sum_cons, List.filter_cons]
    by_cases hP : P hd = true
    · rw [if_pos hP] at hhd
      rw [if_pos hP, List.length_cons]
      omega
    · rw [if_neg hP] at hhd
      rw [if_neg hP]
      omega

/-- Claim C5 (amended): during one `Router.receive` with no failing sends,
a destination pair receives at most one copy of the message per MATCHING
route group — within a single group a destination is sent once (dict keys
are unique), but each matching group containing the destination entry
contributes one send.  Hypotheses record the `Router.__init__` key
invariant and the uniqueness of keys inside each route group (a Python
dict cannot repeat keys). -/
theorem receive_at_most_once_per_matching_group (rt : RouteTable)
    (sockets : String → Socket) (hkeys : ∀ k, (sockets k).key = k)
    (hnodup : ∀ g ∈ rt, (g.map Prod.fst).Nodup) (s c : String) (m : PyMsg)
    (p : Socket × String) :
    List.count (p.1, p.2, m)
        (Router.receive rt sockets (fun _ _ => false) s c m).1
      ≤ (rt.filter (fun g => g.lookup s == some c)).length := by
  have hinj : Function.Injective sockets := by
    intro k k' h
    rw [← hkeys k, ← hkeys k', h]
  unfold Router.receive
  rw [sendLoop_noFail]
  rw [count_map_addMsg m p (Router.dispatch rt sockets s c)]
  unfold Router.dispatch
  rw [count_flatMap]
  apply sum_le_filter_length
  intro g hg
  by_cases hlk : g.lookup s = some c
  · rw [if_pos hlk]
    have hPg : (g.lookup s == some c) = true := by simp [hlk]
    rw [if_pos hPg]
    apply count_le_one_of_nodup
    apply List.Nodup.filterMap
    · intro a a' b hb hb'
      by_cases hca : a.1 ≠ s ∧ (sockets a.1).readonly = false
      · by_cases hca' : a'.1 ≠ s ∧ (sockets a'.1).readonly = false
        · rw [if_pos hca] at hb
          rw [if_pos hca'] at hb'
          have hb1 : (sockets a.1, a.2) = b := by simpa using hb
          have hb2 : (sockets a'.1, a'.2) = b := by simpa using hb'
          have hb3 : (sockets a.1, a.2) = ((sockets a'.1, a'.2) : Socket × String) :=
            hb1.trans hb2.symm
          simp only [Prod.mk.injEq] at hb3
          exact Prod.ext_iff.mpr ⟨hinj hb3.1, hb3.2⟩
        · rw [if_neg hca'] at hb'
          simp at hb'
      · rw [if_neg hca] at hb
        simp at hb
    · exact (hnodup g hg).of_map _
  · rw [if_neg hlk]
    have hPg : ¬((g.lookup s == some c) = true) := by simp [hlk]
    rw [if_neg hPg]
    simp

/-- Witness for the amended C5 on a concrete single-group table. -/
theorem receive_at_most_once_witness :
    (∀ k, ((fun k => mkSocket k SockType.console) k).key = k) ∧
    (∀ g ∈ ([[("a", "c"), ("b", "d")]] : RouteTable),
        (g.map Prod.fst).Nodup) ∧
    List.count
        (mkSocket "b" SockType.console, "d",
          PyMsg.triple "message" (some "u") "hi")
        (Router.receive [[("a", "c"), ("b", "d")]]
          (fun k => mkSocket k SockType.console) (fun _ _ => false)
          "a" "c" (PyMsg.triple "message" (some "u") "hi")).1
      ≤ (([[("a", "c"), ("b", "d")]] : RouteTable).filter
          (fun g => g.lookup "a" == some "c")).length :=
  ⟨fun k => rfl, by decide,
    receive_at_most_once_per_matching_group [[("a", "c"), ("b", "d")]]
      (fun k => mkSocket k SockType.console) (fun k => rfl) (by decide)
      "a" "c" (PyMsg.triple "message" (some "u") "hi")
      (mkSocket "b" SockType.console, "d")⟩

/-- Counterexample to C5 as stated: with two identical route groups both
matching the source, `Router.receive` invokes the destination's `send`
twice with the same message during a single receive. -/
theorem receive_double_send_counterexample :
    List.count
        (mkSocket "b" SockType.console, "d",
          PyMsg.triple "message" (some "u") "hi")
        (Router.receive
          [[("a", "c"), ("b", "d")], [("a", "c"), ("b", "d")]]
          (fun k => mkSocket k SockType.console) (fun _ _ => false)
          "a" "c" (PyMsg.triple "message" (some "u") "hi")).1
      = 2 := by decide

/-- What `Socket.receive` (lines 94-101) invokes on the owning router:
either the user-aggregation query or a forward of the message. -/
inductive RouterCall where
  | usersQuery (chan : String)
  | forward (chan : String) (m : PyMsg)
deriving DecidableEq, Repr

/-- `Socket.receive` (lines 94-101).  The guard at line 98 is
`message[0] == 'message' and message[1][0:4] == '!who' and not self.readonly`.
Note that it subscripts `message[1]` — the SENDER — not `message[2]`, the
text.  When the kind is `'message'` and the sender is `None`, evaluating
`None[0:4]` raises `TypeError` before the readonly test is reached.  For a
2-tuple, `message[1]` is its second component, the text. -/
def Socket.receiveStep (readonly : Bool) (chan : String) (m : PyMsg) :
    Except PyError RouterCall :=
  match m with
  | PyMsg.triple typ sender _ =>
    if typ = "message" then
      match sender with
      | none => Except.error PyError.typeError
      | some sd =>
        if sd.take 4 = "!who" ∧ readonly = false then
          Except.ok (RouterCall.usersQuery chan)
        else Except.ok (RouterCall.forward chan m)
    else Except.ok (RouterCall.forward chan m)
  | PyMsg.pair typ txt =>
    if typ = "message" ∧ txt.take 4 = "!who" ∧ readonly = false then
      Except.ok (RouterCall.usersQuery chan)
    else Except.ok (RouterCall.forward chan m)

/-- Claim C4 (code evaluation): the guard of `Socket.receive` tests the
sender, not the text.  A message whose TEXT starts with `!who` is forwarded
instead of triggering the user query; a message whose SENDER starts with
`!who` triggers the user query; and a kind-`'message'` tuple with an absent
sender raises `TypeError` instead of being forwarded. -/
theorem receive_guard_checks_sender_not_text :
    Socket.receiveStep false "c" (PyMsg.triple "message" (some "alice") "!who")
      = Except.ok (RouterCall.forward "c"
          (PyMsg.triple "message" (some "alice") "!who"))
    ∧ Socket.receiveStep false "c"
        (PyMsg.triple "message" (some "!whoever") "hello")
      = Except.ok (RouterCall.usersQuery "c")
    ∧ Socket.receiveStep true "c" (PyMsg.triple "message" none "hi")
      = Except.error PyError.typeError :=
  ⟨rfl, rfl, rfl⟩

/-- The action `IRC.send` performs on the IRC connection. -/
inductive IrcAction where
  | privmsg (chan text : String)
  | notice (chan text : String)
  | noop
deriving DecidableEq, Repr

/-- `IRC.send` (lines 172-180): unpacks the message 3-tuple (unpacking a
2-tuple into three names raises `ValueError`), prefixes `<sender> ` onto
the contents only when the sender is present, then emits a privmsg for
kind `'message'`, a notice for kind `'notice'`, and nothing otherwise. -/
def IRC.send (chan : String) (m : PyMsg) : Except PyError IrcAction :=
  match m with
  | PyMsg.pair _ _ => Except.error PyError.valueError
  | PyMsg.triple typ sender contents =>
    let c := match sender with
      | some sd => "<" ++ sd ++ "> " ++ contents
      | none => contents
    if typ = "message" then Except.ok (IrcAction.privmsg chan c)
    else if typ = "notice" then Except.ok (IrcAction.notice chan c)
    else Except.ok IrcAction.noop

/-- `XMPP.send` (lines 214-219): reads `message[1]` and `message[2]` by
index; when the sender is present the body is `<sender> text`, otherwise
the text alone.  On a 2-tuple, `message[1]` is its text (a string, hence
not `None`) and `message[2]` is out of range, raising `IndexError`.
Returns the `(mto, mbody)` of the groupchat message sent. -/
def XMPP.send (channel : String) (m : PyMsg) :
    Except PyError (String × String) :=
  match m with
  | PyMsg.triple _ sender text =>
    match sender with
    | some sd => Except.ok (channel, "<" ++ sd ++ "> " ++ text)
    | none => Except.ok (channel, text)
  | PyMsg.pair _ _ => Except.error PyError.indexError

/-- Every send call attempted by the send loop carries the original
message. -/
theorem sendLoop_preserves_msg (f : String → String → Bool) (m : PyMsg) :
    ∀ l : List (Socket × String), ∀ e ∈ (Router.sendLoop f m l).1,
      e.2.2 = m := by
  intro l
  induction l with
  | nil =>
    intro e he
    simp [Router.sendLoop] at he
  | cons hd tl ih =>
    obtain ⟨d, dc⟩ := hd
    intro e he
    by_cases hf : f d.key dc
    · simp [Router.sendLoop, hf] at he
      rw [he]
    · simp only [Router.sendLoop, hf, if_false, Bool.false_eq_true,
        List.mem_cons] at he
      rcases he with he | he
      · rw [he]
      · exact ih e he

/-- Claim C7: the router passes the received message value unchanged to
every destination send it attempts; the `<sender> text` prefixing happens
only inside `IRC.send` and `XMPP.send` on their rendered output, and only
when a sender is present — with an absent sender the text is transmitted
as-is. -/
theorem router_forwards_message_unchanged (rt : RouteTable)
    (sockets : String → Socket) (sendFails : String → String → Bool)
    (s c : String) (m : PyMsg) :
    (∀ e ∈ (Router.receive rt sockets sendFails s c m).1, e.2.2 = m)
    ∧ (∀ chan sd text, IRC.send chan (PyMsg.triple "message" (some sd) text)
        = Except.ok (IrcAction.privmsg chan ("<" ++ sd ++ "> " ++ text)))
    ∧ (∀ chan text, IRC.send chan (PyMsg.triple "message" none text)
        = Except.ok (IrcAction.privmsg chan text))
    ∧ (∀ chan sd text, IRC.send chan (PyMsg.triple "notice" (some sd) text)
        = Except.ok (IrcAction.notice chan ("<" ++ sd ++ "> " ++ text)))
    ∧ (∀ chan sd text, XMPP.send chan (PyMsg.triple "message" (some sd) text)
        = Except.ok (chan, "<" ++ sd ++ "> " ++ text))
    ∧ (∀ chan text, XMPP.send chan (PyMsg.triple "message" none text)
        = Except.ok (chan, text)) := by
  refine ⟨?_, fun chan sd text => rfl, fun chan text => rfl,
    fun chan sd text => rfl, fun chan sd text => rfl, fun chan text => rfl⟩
  intro e he
  exact sendLoop_preserves_msg sendFails m
    (Router.dispatch rt sockets s c) e he

/-- Witness for C7 on a concrete routed delivery. -/
theorem router_forwards_message_unchanged_witness :
    ((mkSocket "b" SockType.console, "d",
        PyMsg.triple "message" (some "u") "hi")
      ∈ (Router.receive [[("a", "c"), ("b", "d")]]
          (fun k => mkSocket k SockType.console) (fun _ _ => false)
          "a" "c" (PyMsg.triple "message" (some "u") "hi")).1)
    ∧ (mkSocket "b" SockType.console, "d",
        PyMsg.triple "message" (some "u") "hi").2.2
      = PyMsg.triple "message" (some "u") "hi" :=
  ⟨by decide,
    (router_forwards_message_unchanged [[("a", "c"), ("b", "d")]]
      (fun k => mkSocket k SockType.console) (fun _ _ => false)
      "a" "c" (PyMsg.triple "message" (some "u") "hi")).1
      (mkSocket "b" SockType.console, "d",
        PyMsg.triple "message" (some "u") "hi") (by decide)⟩

/-- `Socket.users` (lines 112-113), the base implementation inherited by
`Console` and `FIFO`: returns `None` and cannot raise. -/
def Socket.users (_ : String) : Except PyError (Option (List String)) :=
  Except.ok none

/-- `IRC.users` (lines 182-186): a bare `except` catches any failure of
the roster lookup (`self.bot.channels[channel].users()`, abstracted as the
`roster` oracle), logs it, and falls through returning `None`. -/
def IRC.users (roster : String → Except PyError (List String))
    (channel : String) : Except PyError (Option (List String)) :=
  match roster channel with
  | Except.ok u => Except.ok (some u)
  | Except.error _ => Except.ok none

/-- `XMPP.users` (lines 221-222): returns the MUC roster lookup
(`self._bot.plugin['xep_0045'].getRoster(channel)`, abstracted as the
`roster` oracle) directly, with no exception handler around it. -/
def XMPP.users (roster : String → Except PyError (List String))
    (channel : String) : Except PyError (Option (List String)) :=
  match roster channel with
  | Except.ok u => Except.ok (some u)
  | Except.error e => Except.error e

/-- Claim C6 (amended): the base implementation and the IRC variant of
`users` return the roster or `None` ("unavailable") and never let an
exception propagate; the failure of a lookup makes `IRC.users` return
`None`.  (The XMPP variant does not share this property, see the
counterexample.) -/
theorem users_error_handling (roster : String → Except PyError (List String))
    (channel : String) :
    Socket.users channel = Except.ok none
    ∧ (∃ r, IRC.users roster channel = Except.ok r)
    ∧ (∀ u, roster channel = Except.ok u →
        IRC.users roster channel = Except.ok (some u))
    ∧ (∀ e, roster channel = Except.error e →
        IRC.users roster channel = Except.ok none) := by
  refine ⟨rfl, ?_, ?_, ?_⟩
  · unfold IRC.users
    cases roster channel with
    | ok u => exact ⟨some u, rfl⟩
    | error e => exact ⟨none, rfl⟩
  · intro u hu
    unfold IRC.users
    rw [hu]
  · intro e he
    unfold IRC.users
    rw [he]

/-- Witness for the amended C6 on a concrete failing roster. -/
theorem users_error_handling_witness :
    ((fun _ => Except.error PyError.exc :
        String → Except PyError (List String)) "#c"
      = Except.error PyError.exc)
    ∧ IRC.users (fun _ => Except.error PyError.exc) "#c" = Except.ok none :=
  ⟨rfl, (users_error_handling (fun _ => Except.error PyError.exc) "#c").2.2.2
    PyError.exc rfl⟩

/-- Counterexample to C6 as stated: a failing roster lookup makes
`XMPP.users` propagate the exception past its boundary. -/
theorem xmpp_users_propagates_counterexample :
    XMPP.users (fun _ => Except.error PyError.exc) "room"
      = Except.error PyError.exc := rfl

/-- `Socket.register` (lines 103-106): `self._channels.add(chan)` on the
`_channels` set created by `Socket.__init__` (line 80). -/
def Socket.register (chan : String) (channels : Finset String) :
    Finset String :=
  insert chan channels

/-- Claim C8: `register` is idempotent — registering the same channel any
positive number of times leaves the joined-channel set equal to the result
of registering it once. -/
theorem register_idempotent (chan : String) (s : Finset String) (n : Nat)
    (h : 1 ≤ n) :
    (Socket.register chan)^[n] s = Socket.register chan s := by
  induction n with
  | zero => omega
  | succ k ih =>
    cases k with
    | zero => rfl
    | succ k' =>
      rw [Function.iterate_succ_apply', ih (by omega)]
      simp [Socket.register, Finset.insert_idem]

/-- Witness for C8: registering twice equals registering once. -/
theorem register_idempotent_witness :
    1 ≤ 2 ∧ (Socket.register "a")^[2] (∅ : Finset String)
      = Socket.register "a" (∅ : Finset String) :=
  ⟨by decide, register_idempotent "a" ∅ 2 (by decide)⟩

/-- The whitespace characters stripped by Python `str.strip()` from ASCII
text. -/
def pyIsSpace (c : Char) : Bool :=
  c = ' ' ∨ c = '\t' ∨ c = '\n' ∨ c = '\r' ∨ c = '\x0b' ∨ c = '\x0c'

/-- Python `line.strip()` (line 132): drop leading and trailing
whitespace. -/
def pyStrip (s : String) : String :=
  String.mk (((s.data.dropWhile pyIsSpace).reverse.dropWhile pyIsSpace).reverse)

/-- One iteration of the `while True` loop of `FIFO.run` (lines 128-135):
the lines obtained from the opened handle before the iteration ended, and
whether it ended in an exception (which the `except` clause only logs). -/
structure FifoSession where
  lines : List String
  failed : Bool
deriving DecidableEq, Repr

/-- The `receive` call made by `FIFO.run` (line 132) for one line read
from the pipe: channel `"*"`, kind `'notice'`, absent sender, stripped
text. -/
def FIFO.receiveCall (line : String) : String × PyMsg :=
  ("*", PyMsg.triple "notice" none (pyStrip line))

/-- The receive calls of one loop iteration of `FIFO.run`: one call per
line read. -/
def FIFO.sessionCalls (s : FifoSession) : List (String × PyMsg) :=
  s.lines.map FIFO.receiveCall

/-- `FIFO.run` (lines 127-135) over a finite prefix of loop iterations.
The `except` clause only logs, so the loop proceeds to the next iteration
whether or not the previous one failed. -/
def FIFO.runTrace : List FifoSession → List (String × PyMsg)
  | [] => []
  | s :: rest => FIFO.sessionCalls s ++ FIFO.runTrace rest

/-- Claim C9: every line read from the fifo produces exactly one `receive`
call on channel `"*"` with a `('notice', None, stripped line)` message —
one call per line, in order, with the concrete scenario
`"hello\n" ↦ ("*", ('notice', None, "hello"))` — and a failed iteration
does not stop the loop: the calls of the following iterations still
happen. -/
theorem fifo_line_handling :
    (∀ tr : List FifoSession,
        FIFO.runTrace tr
          = tr.flatMap (fun s => s.lines.map (fun l =>
              ("*", PyMsg.triple "notice" none (pyStrip l)))))
    ∧ (∀ ls rest, FIFO.runTrace (⟨ls, true⟩ :: rest)
        = ls.map FIFO.receiveCall ++ FIFO.runTrace rest)
    ∧ (∀ tr : List FifoSession,
        (FIFO.runTrace tr).length = (tr.map (fun s => s.lines.length)).sum)
    ∧ FIFO.receiveCall "hello\n" = ("*", PyMsg.triple "notice" none "hello") := by
  refine ⟨?_, fun ls rest => rfl, ?_, by decide⟩
  · intro tr
    induction tr with
    | nil => rfl
    | cons s rest ih =>
      rw [List.flatMap_cons, ← ih]
      rfl
  · intro tr
    induction tr with
    | nil => rfl
    | cons s rest ih =>
      simp only [FIFO.runTrace, List.length_append, ih, FIFO.sessionCalls,
        List.length_map, List.map_cons, List.sum_cons]

/-- Events performed by `Router.users` (lines 264-268) in order. -/
inductive UsersEvent where
  | usersCall (destKey chan : String)
  | sendReply (chan : String) (m : PyMsg)
deriving DecidableEq, Repr

/-- The loop body of `Router.users` (lines 264-268) for one dispatch
entry: `users = dest.users(dest_chan)` is one roster call; when the result
is not `None`, building the reply text evaluates `dest.users(dest_chan)` a
SECOND time (inside `', '.join(...)` at line 268), and `source.send`
receives the 2-tuple `('message', "Users on <key>: <list>.")` — not a
3-tuple.  `usersOf` abstracts the destination's `users` method, keyed by
socket key and channel. -/
def Router.usersStep (usersOf : String → String → Option (List String))
    (srcChan : String) (dest : Socket) (destChan : String) :
    List UsersEvent :=
  match usersOf dest.key destChan with
  | none => [UsersEvent.usersCall dest.key destChan]
  | some u =>
    [UsersEvent.usersCall dest.key destChan,
     UsersEvent.usersCall dest.key destChan,
     UsersEvent.sendReply srcChan
       (PyMsg.pair "message"
         ("Users on " ++ dest.key ++ ": "
           ++ String.intercalate ", " u ++ "."))]

/-- `Router.users` (lines 264-268): the loop over the dispatch set. -/
def Router.usersTrace (rt : RouteTable) (sockets : String → Socket)
    (usersOf : String → String → Option (List String))
    (srcKey srcChan : String) : List UsersEvent :=
  (Router.dispatch rt sockets srcKey srcChan).flatMap
    (fun p => Router.usersStep usersOf srcChan p.1 p.2)

/-- Claim C10: for a destination whose `users()` result is present, the
loop body of `Router.users` calls the destination's `users` twice and
passes `source.send` a 2-tuple `('message', "Users on <key>: <list>.")`
rather than a 3-tuple; consequently `IRC.send`, which unpacks the
3-tuple shape, raises `ValueError` on any such reply. -/
theorem users_reply_is_pair_and_calls_twice
    (usersOf : String → String → Option (List String))
    (srcChan : String) (dest : Socket) (destChan : String) (u : List String)
    (h : usersOf dest.key destChan = some u) :
    Router.usersStep usersOf srcChan dest destChan
      = [UsersEvent.usersCall dest.key destChan,
         UsersEvent.usersCall dest.key destChan,
         UsersEvent.sendReply srcChan
           (PyMsg.pair "message"
             ("Users on " ++ dest.key ++ ": "
               ++ String.intercalate ", " u ++ "."))]
    ∧ (∀ chan kind text, IRC.send chan (PyMsg.pair kind text)
        = Except.error PyError.valueError) := by
  constructor
  · unfold Router.usersStep
    rw [h]
  · intro chan kind text
    rfl

/-- Witness for C10 on a concrete present roster. -/
theorem users_reply_witness :
    ((fun _ _ => some ["x", "y"] :
        String → String → Option (List String))
      (mkSocket "i" SockType.irc).key "#c" = some ["x", "y"])
    ∧ Router.usersStep (fun _ _ => some ["x", "y"]) "muc"
        (mkSocket "i" SockType.irc) "#c"
      = [UsersEvent.usersCall "i" "#c", UsersEvent.usersCall "i" "#c",
         UsersEvent.sendReply "muc"
           (PyMsg.pair "message" "Users on i: x, y.")] :=
  ⟨rfl, by
    have h := (users_reply_is_pair_and_calls_twice (fun _ _ => some ["x", "y"])
      "muc" (mkSocket "i" SockType.irc) "#c" ["x", "y"] rfl).1
    rw [h]
    rfl⟩
